import Mathlib

/-!
Shallow embedding of the client-side agent movement controller of the
repository (`src/components/pixi/hooks/useAgentController.ts`): the grid
obstacle index, the path planner wrapper, the per-frame motion integrator,
the snapshot reconciliation pass and the auto-balance relocation handler.

Numbers held in JavaScript variables are modelled as exact rationals `ℚ`;
grid dimensions and building rectangles are integers (the scene schema keeps
them in integer grid units); millisecond timestamps are integers.
`Math.hypot` is modelled as an explicit function parameter `hyp`: theorems
that depend on its metric meaning carry the hypotheses `hyp dx dy ≥ 0` and
`(hyp dx dy)² = dx² + dy²` at the points where the code consults it.
-/

namespace AgentController

/-- The four movement directives (`MOVEMENT_ACTIONS` in the source). -/
inductive AgentBehavior where
  | move_left
  | move_right
  | move_up
  | move_down
deriving DecidableEq, Repr

/-- One agent record (`AgentState` in the source).  `updatedAt` is the parsed
millisecond timestamp (the `Date.parse` result), `none` when the snapshot
carried no `updatedAt` field. -/
structure AgentState where
  id : String
  label : String
  position : ℚ × ℚ
  color : Option ℕ := none
  actions : List AgentBehavior
  updatedAt : Option ℤ := none
deriving DecidableEq, Repr

/-- A building footprint rectangle `[x, y, w, h]` (`SceneBuilding.rect` after
`ensureRect`), in integer grid units. -/
structure Building where
  x : ℤ
  y : ℤ
  w : ℤ
  h : ℤ
deriving DecidableEq, Repr

/-- The WASD `keyState` flags read by the frame loop. -/
structure KeyState where
  w : Bool := false
  a : Bool := false
  s : Bool := false
  d : Bool := false
deriving DecidableEq, Repr

def MOVEMENT_SPEED : ℚ := 1/10

def COMMAND_STEP : ℚ := 12/100

def PLAYER_ID : String := "ares-01"

def PATH_STEP : ℚ := 8/100

def PATH_DELAY_MS : ℤ := 500

/-- `Number.EPSILON` (2⁻⁵²) as an exact rational. -/
def jsEpsilon : ℚ := 1/4503599627370496

/-- `new Set(xs)` viewed as a list: keeps the first occurrence of every
element, in insertion order. -/
def jsSetFrom {α : Type} [DecidableEq α] : List α → List α
  | [] => []
  | x :: xs => x :: (jsSetFrom xs).filter (fun y => y ≠ x)

/-- `isBlocked(x, y)`: containment of a continuous point in any building
rectangle (lines 128–136). -/
def isBlocked (buildings : List Building) (x y : ℚ) : Bool :=
  buildings.any fun b =>
    decide ((b.x : ℚ) ≤ x) && decide (x < (b.x : ℚ) + (b.w : ℚ)) &&
    decide ((b.y : ℚ) ≤ y) && decide (y < (b.y : ℚ) + (b.h : ℚ))

/-- `clampWithinBounds(value, max)` (lines 186–194). -/
def clampWithinBounds (value mx : ℚ) : ℚ :=
  if mx ≤ 0 then value
  else if value < 0 then 0
  else if mx ≤ value then mx - jsEpsilon
  else value

/-- The outcome of one per-agent step of the `update` frame callback: the new
agent record plus the post-tick contents of this agent's entries in
`pathQueueRef` (`path`), `pathCooldownRef` (`cooldown`), and the write (if
any) to `persistedPositionsRef` (`persist`). -/
structure TickResult where
  agent : AgentState
  path : Option (List (ℚ × ℚ))
  cooldown : Option ℤ
  persist : Option ((ℚ × ℚ) × ℤ)
deriving DecidableEq, Repr

/-- Movement phase of one per-agent step of `update` (lines 235–288): either
an early return of the unchanged agent (`Sum.inl`, covering the path-follow
throttle and the idle non-player case) or the tentative position together
with the action list, path-queue entry and cooldown entry to carry into the
clamp/collision tail (`Sum.inr`).  `hyp` stands for `Math.hypot`. -/
def moveAgent (hyp : ℚ → ℚ → ℚ) (keys : KeyState)
    (activePath : Option (List (ℚ × ℚ))) (lastMove : Option ℤ) (nowTs : ℤ)
    (agent : AgentState) :
    Sum TickResult (ℚ × ℚ × List AgentBehavior × Option (List (ℚ × ℚ)) × Option ℤ) :=
  let persistent := jsSetFrom agent.actions
  let isPlayer := agent.id == PLAYER_ID
  match activePath with
  | some (target :: restPath) =>
    if nowTs - lastMove.getD 0 < PATH_DELAY_MS then
      Sum.inl ⟨agent, some (target :: restPath), lastMove, none⟩
    else
      let dx := target.1 - agent.position.1
      let dy := target.2 - agent.position.2
      let dist := hyp dx dy
      let moved : (ℚ × ℚ) × Option (List (ℚ × ℚ)) :=
        if dist ≤ PATH_STEP then
          ((target.1, target.2), if restPath.isEmpty then none else some restPath)
        else if 0 < dist then
          let step := min PATH_STEP dist
          ((agent.position.1 + dx / dist * step, agent.position.2 + dy / dist * step),
            some (target :: restPath))
        else
          ((agent.position.1, agent.position.2), some (target :: restPath))
      Sum.inr (moved.1.1, moved.1.2, [], moved.2,
        if moved.2.isSome then some nowTs else none)
  | _ =>
    let x0 := agent.position.1
    let y0 := agent.position.2
    let y1 := if isPlayer && keys.w then y0 - MOVEMENT_SPEED else y0
    let y2 := if isPlayer && keys.s then y1 + MOVEMENT_SPEED else y1
    let x1 := if isPlayer && keys.a then x0 - MOVEMENT_SPEED else x0
    let x2 := if isPlayer && keys.d then x1 + MOVEMENT_SPEED else x1
    let y3 := if persistent.contains AgentBehavior.move_up then y2 - COMMAND_STEP else y2
    let y4 := if persistent.contains AgentBehavior.move_down then y3 + COMMAND_STEP else y3
    let x3 := if persistent.contains AgentBehavior.move_left then x2 - COMMAND_STEP else x2
    let x4 := if persistent.contains AgentBehavior.move_right then x3 + COMMAND_STEP else x3
    if !isPlayer && persistent.isEmpty then
      Sum.inl ⟨agent, activePath, none, none⟩
    else
      Sum.inr (x4, y4, persistent, activePath, none)

/-- Tail of one per-agent step of `update` (lines 290–316): clamp the
tentative position to world bounds, reject the move when the destination is
blocked or coincides with the current position, otherwise emit the updated
agent and, for the player, the `persistedPositionsRef` write. -/
def finishTick (cols rows : ℕ) (buildings : List Building) (agent : AgentState)
    (acts : List AgentBehavior) (nextX nextY : ℚ)
    (path : Option (List (ℚ × ℚ))) (cooldown : Option ℤ) (now : ℤ) : TickResult :=
  let nx := clampWithinBounds nextX (cols : ℚ)
  let ny := clampWithinBounds nextY (rows : ℚ)
  if isBlocked buildings nx ny then ⟨agent, path, cooldown, none⟩
  else if nx = agent.position.1 ∧ ny = agent.position.2 then ⟨agent, path, cooldown, none⟩
  else
    ⟨{ agent with actions := acts, position := (nx, ny), updatedAt := some now },
      path, cooldown,
      if agent.id == PLAYER_ID then some ((nx, ny), now) else none⟩

/-- One per-agent step of the `update` frame callback (lines 232–317).
`nowTs` and `now` are the two `Date.now()` reads of the tick. -/
def tickAgent (hyp : ℚ → ℚ → ℚ) (cols rows : ℕ) (buildings : List Building)
    (keys : KeyState) (activePath : Option (List (ℚ × ℚ))) (lastMove : Option ℤ)
    (nowTs now : ℤ) (agent : AgentState) : TickResult :=
  match moveAgent hyp keys activePath lastMove nowTs agent with
  | Sum.inl r => r
  | Sum.inr (nx, ny, acts, path, cooldown) =>
    finishTick cols rows buildings agent acts nx ny path cooldown now

/-- `Math.round` on a rational: round half toward positive infinity. -/
def jsRound (q : ℚ) : ℤ := ⌊q + 1/2⌋

/-- The local `clamp` of `computePath` (lines 159–163): clamp a rounded cell
coordinate into `[0, max-1]`. -/
def plannerClamp (value : ℤ) (mx : ℕ) : ℤ :=
  if value < 0 then 0
  else if (mx : ℤ) ≤ value then (mx : ℤ) - 1
  else value

/-- Walkability of an integer cell of the navigation grid built by
`buildNavigationGrid` (lines 138–151): inside the grid and not covered by any
building rectangle.  (The source clips out-of-range building cells when
marking the grid; out-of-range cells are unwalkable by grid bounds either
way.) -/
def cellWalkable (cols rows : ℕ) (buildings : List Building) (x y : ℤ) : Bool :=
  decide (0 ≤ x) && decide (x < (cols : ℤ)) && decide (0 ≤ y) && decide (y < (rows : ℤ)) &&
  !(buildings.any fun b =>
      decide (b.x ≤ x) && decide (x < b.x + b.w) &&
      decide (b.y ≤ y) && decide (y < b.y + b.h))

/-- Neighbor cells in the visitation order of the pathfinding library's
4-directional grid search: up, right, down, left. -/
def neighborsOf (p : ℤ × ℤ) : List (ℤ × ℤ) :=
  [(p.1, p.2 - 1), (p.1 + 1, p.2), (p.1, p.2 + 1), (p.1 - 1, p.2)]

/-- Fuel-bounded breadth-first search over the walkability grid, modelling the
library's 4-directional uniform-cost search (`PF.AStarFinder` with no
diagonal movement).  The queue holds reversed partial paths; `visited` holds
every enqueued cell.  Returns `[]` when no route is found. -/
def bfs (walkable : ℤ → ℤ → Bool) (goal : ℤ × ℤ) :
    ℕ → List (List (ℤ × ℤ)) → List (ℤ × ℤ) → List (ℤ × ℤ)
  | 0, _, _ => []
  | _ + 1, [], _ => []
  | fuel + 1, [] :: queue, visited => bfs walkable goal fuel queue visited
  | fuel + 1, (cur :: tl) :: queue, visited =>
    if cur = goal then (cur :: tl).reverse
    else
      let ns := (neighborsOf cur).filter fun q =>
        walkable q.1 q.2 && !(visited.contains q)
      bfs walkable goal fuel (queue ++ ns.map (fun q => q :: cur :: tl)) (visited ++ ns)

/-- The raw cell path returned by `finderRef.current.findPath` on the grid
built from the current buildings.  Like the library search, the start cell is
expanded even if it is itself blocked, and an unwalkable or unreachable goal
yields `[]`. -/
def findPath (cols rows : ℕ) (buildings : List Building) (sx sy gx gy : ℤ) :
    List (ℤ × ℤ) :=
  bfs (cellWalkable cols rows buildings) (gx, gy) (cols * rows + 2)
    [[(sx, sy)]] [(sx, sy)]

/-- `computePath(from, to)` (lines 155–184): round and clamp both endpoints
into the grid, refuse a blocked goal cell, run the grid search, drop the
start cell and map the remaining cells to their centers. -/
def computePath (cols rows : ℕ) (buildings : List Building)
    (src dst : ℚ × ℚ) : Option (List (ℚ × ℚ)) :=
  if cols = 0 ∨ rows = 0 then none
  else
    let startX := plannerClamp (jsRound src.1) cols
    let startY := plannerClamp (jsRound src.2) rows
    let goalX := plannerClamp (jsRound dst.1) cols
    let goalY := plannerClamp (jsRound dst.2) rows
    if isBlocked buildings (goalX : ℚ) (goalY : ℚ) then none
    else
      let rawPath := findPath cols rows buildings startX startY goalX goalY
      if rawPath.length ≤ 1 then none
      else some (rawPath.tail.map fun c => ((c.1 : ℚ) + 1/2, (c.2 : ℚ) + 1/2))

/-- Lookup in an association list modelling a JS `Map`. -/
def mapLookup {β : Type} (m : List (String × β)) (k : String) : Option β :=
  match m with
  | [] => none
  | (k', v) :: rest => if k' = k then some v else mapLookup rest k

/-- `Map.set`: replace the entry in place, or append a fresh one. -/
def mapInsert {β : Type} (m : List (String × β)) (k : String) (v : β) :
    List (String × β) :=
  match m with
  | [] => [(k, v)]
  | (k', v') :: rest =>
    if k' = k then (k, v) :: rest else (k', v') :: mapInsert rest k v

/-- `Map.delete`. -/
def mapDelete {β : Type} (m : List (String × β)) (k : String) :
    List (String × β) :=
  m.filter fun e => e.1 ≠ k

/-- The locally persisted `(position, timestamp)` map
(`persistedPositionsRef`). -/
abbrev PersistMap := List (String × ((ℚ × ℚ) × ℤ))

/-- Reconciliation of one inbound snapshot agent against the persisted map
(the body of the `initialAgents.map` callback, lines 78–93): a strictly newer
incoming timestamp (missing timestamps count as 0) wins and is recorded;
otherwise the stored position and timestamp replace the incoming ones. -/
def reconcileAgent (persisted : PersistMap) (agent : AgentState) :
    PersistMap × AgentState :=
  let incomingTs : ℤ := agent.updatedAt.getD 0
  match mapLookup persisted agent.id with
  | none =>
    (mapInsert persisted agent.id (agent.position, incomingTs), agent)
  | some stored =>
    if stored.2 < incomingTs then
      (mapInsert persisted agent.id (agent.position, incomingTs), agent)
    else
      (persisted, { agent with position := stored.1, updatedAt := some stored.2 })

/-- Left-to-right reconciliation of the whole snapshot agent list, threading
the persisted map through (lines 76–93). -/
def reconcileList (persisted : PersistMap) :
    List AgentState → PersistMap × List AgentState
  | [] => (persisted, [])
  | a :: rest =>
    let pa := reconcileAgent persisted a
    let prest := reconcileList pa.1 rest
    (prest.1, pa.2 :: prest.2)

/-- One full snapshot reconciliation pass (lines 75–115): refresh every
incoming agent against the persisted map, then drop persisted entries whose
id no longer appears in the snapshot. -/
def reconcile (persisted : PersistMap) (incoming : List AgentState) :
    PersistMap × List AgentState :=
  let step := reconcileList persisted incoming
  (step.1.filter fun e => step.2.any fun a => a.id = e.1, step.2)

/-- The mutable-ref state touched by the auto-balance relocation handler. -/
structure RelocState where
  pathQueue : List (String × List (ℚ × ℚ))
  pathCooldown : List (String × ℤ)
  persisted : PersistMap
  latest : List (String × (ℚ × ℚ))
  lastSynced : List (String × (ℚ × ℚ))
  agents : List AgentState
deriving DecidableEq, Repr

/-- The relocation branch of `handleAgentCommand`'s auto-balance callback
(lines 384–434): look up the agent's last known position, ask the planner for
a route to the relocation target, and either queue the path or — when the
planner yields no usable path — write the target position directly into every
position store and into the agent record.  The several `Date.now()` reads of
the branch are modelled by the single parameter `now`. -/
def handleRelocation (cols rows : ℕ) (buildings : List Building)
    (relocId : String) (rx ry : ℚ) (now : ℤ) (st : RelocState) : RelocState :=
  match mapLookup st.latest relocId with
  | none => st
  | some current =>
    match computePath cols rows buildings current (rx, ry) with
    | some path =>
      if path.isEmpty then
        { st with
            pathCooldown := mapDelete st.pathCooldown relocId
            persisted := mapInsert st.persisted relocId ((rx, ry), now)
            latest := mapInsert st.latest relocId (rx, ry)
            lastSynced := mapInsert st.lastSynced relocId (rx, ry)
            agents := st.agents.map fun agent =>
              if agent.id = relocId then
                { agent with position := (rx, ry), updatedAt := some now, actions := [] }
              else agent }
      else
        { st with
            pathQueue := mapInsert st.pathQueue relocId path
            pathCooldown := mapInsert st.pathCooldown relocId now
            agents := st.agents.map fun agent =>
              if agent.id = relocId then
                { agent with actions := [], updatedAt := some now }
              else agent }
    | none =>
      { st with
          pathCooldown := mapDelete st.pathCooldown relocId
          persisted := mapInsert st.persisted relocId ((rx, ry), now)
          latest := mapInsert st.latest relocId (rx, ry)
          lastSynced := mapInsert st.lastSynced relocId (rx, ry)
          agents := st.agents.map fun agent =>
            if agent.id = relocId then
              { agent with position := (rx, ry), updatedAt := some now, actions := [] }
            else agent }

/-- Iterate `tickAgent` over a list of `(nowTs, now)` tick times, feeding the
agent's path-queue and cooldown entries back into the next tick. -/
def runTicks (hyp : ℚ → ℚ → ℚ) (cols rows : ℕ) (buildings : List Building)
    (keys : KeyState) :
    List (ℤ × ℤ) → AgentState × Option (List (ℚ × ℚ)) × Option ℤ →
    AgentState × Option (List (ℚ × ℚ)) × Option ℤ
  | [], st => st
  | t :: ts, st =>
    let r := tickAgent hyp cols rows buildings keys st.2.1 st.2.2 t.1 t.2 st.1
    runTicks hyp cols rows buildings keys ts (r.agent, r.path, r.cooldown)

/-- A stand-in for `Math.hypot` that is exact on axis-aligned displacements
(the only ones arising in the concrete runs below). -/
def hypAxis (dx dy : ℚ) : ℚ :=
  if dx = 0 then (if 0 ≤ dy then dy else -dy)
  else if dy = 0 then (if 0 ≤ dx then dx else -dx)
  else 0

/-- All WASD keys released. -/
def keysOff : KeyState := {}

/-- All WASD keys held. -/
def keysAll : KeyState := { w := true, a := true, s := true, d := true }

/-- A non-player agent standing on the cell center `(2.5, 2.5)`. -/
def demoAgent : AgentState :=
  { id := "rover", label := "", position := (5/2, 5/2), actions := [] }

/-- Fourteen tick times, 1000 ms apart (comfortably beyond the 500 ms
path-follow delay). -/
def demoTimes : List (ℤ × ℤ) :=
  [(1000, 1000), (2000, 2000), (3000, 3000), (4000, 4000), (5000, 5000),
   (6000, 6000), (7000, 7000), (8000, 8000), (9000, 9000), (10000, 10000),
   (11000, 11000), (12000, 12000), (13000, 13000), (14000, 14000)]

/-- A non-player agent with an asserted `move_right` directive. -/
def agMoveRight : AgentState :=
  { id := "b1", label := "", position := (1, 1), actions := [AgentBehavior.move_right] }

/-- A non-player agent outside the (empty) world range of a zero-dimension
scene, with an asserted `move_right` directive. -/
def agStray : AgentState :=
  { id := "b1", label := "", position := (-1, 0), actions := [AgentBehavior.move_right] }

/-- A non-player agent with no directives. -/
def agIdle : AgentState :=
  { id := "b2", label := "idle", position := (3, 3), actions := [] }

/-- The 2×2 building footprint at `(4, 4)` used by the concrete scenarios. -/
def b442 : Building := ⟨4, 4, 2, 2⟩

/-- The agent relocated by the concrete auto-balance scenario. -/
def relocAgent : AgentState := { id := "b1", label := "", position := (1, 1), actions := [] }

/-- Ref state for the concrete auto-balance scenario: the agent's last known
position is `(1, 1)`. -/
def relocDemo : RelocState :=
  { pathQueue := [], pathCooldown := [], persisted := [], latest := [("b1", (1, 1))],
    lastSynced := [], agents := [relocAgent] }

/-- A persisted map holding position `(10, 10)` at timestamp 100 for `"n1"`. -/
def persistOne : PersistMap := [("n1", ((10, 10), 100))]

/-- A snapshot agent for `"n1"` carrying a stale timestamp 50. -/
def agStale : AgentState :=
  { id := "n1", label := "", position := (0, 0), actions := [], updatedAt := some 50 }

/-- A snapshot agent for `"n1"` with no `updatedAt` field. -/
def agNoTs : AgentState := { id := "n1", label := "", position := (0, 0), actions := [] }

/-- Every early return of the movement phase hands back the unchanged agent. -/
theorem moveAgent_inl_agent (hyp : ℚ → ℚ → ℚ) (keys : KeyState)
    (activePath : Option (List (ℚ × ℚ))) (lastMove : Option ℤ) (nowTs : ℤ)
    (agent : AgentState) (r : TickResult)
    (h : moveAgent hyp keys activePath lastMove nowTs agent = Sum.inl r) :
    r.agent = agent := by
  rcases activePath with _ | ⟨_ | ⟨t, rest⟩⟩ <;>
    simp only [moveAgent] at h <;>
    split at h <;>
    first
      | (cases h; rfl)
      | simp_all

/-- `tickAgent` returns the early-return record as is. -/
theorem tickAgent_eq_inl (hyp : ℚ → ℚ → ℚ) (cols rows : ℕ) (buildings : List Building)
    (keys : KeyState) (activePath : Option (List (ℚ × ℚ))) (lastMove : Option ℤ)
    (nowTs now : ℤ) (agent : AgentState) (r : TickResult)
    (h : moveAgent hyp keys activePath lastMove nowTs agent = Sum.inl r) :
    tickAgent hyp cols rows buildings keys activePath lastMove nowTs now agent = r := by
  unfold tickAgent
  rw [h]

/-- `tickAgent` feeds a tentative move into the clamp/collision tail. -/
theorem tickAgent_eq_inr (hyp : ℚ → ℚ → ℚ) (cols rows : ℕ) (buildings : List Building)
    (keys : KeyState) (activePath : Option (List (ℚ × ℚ))) (lastMove : Option ℤ)
    (nowTs now : ℤ) (agent : AgentState) (nx ny : ℚ) (acts : List AgentBehavior)
    (path : Option (List (ℚ × ℚ))) (cd : Option ℤ)
    (h : moveAgent hyp keys activePath lastMove nowTs agent = Sum.inr (nx, ny, acts, path, cd)) :
    tickAgent hyp cols rows buildings keys activePath lastMove nowTs now agent =
      finishTick cols rows buildings agent acts nx ny path cd now := by
  unfold tickAgent
  rw [h]

/-- For a bound of at least one, `clampWithinBounds` lands in `[0, mx)`. -/
theorem clampWithinBounds_mem (value mx : ℚ) (h : 1 ≤ mx) :
    0 ≤ clampWithinBounds value mx ∧ clampWithinBounds value mx < mx := by
  unfold clampWithinBounds jsEpsilon
  split_ifs with h1 h2 h3 <;> constructor <;> linarith

/-- The clamp/collision tail either returns the agent unchanged, or moves it
exactly onto the clamped tentative position, which is then unblocked. -/
theorem finishTick_position (cols rows : ℕ) (buildings : List Building)
    (agent : AgentState) (acts : List AgentBehavior) (nextX nextY : ℚ)
    (path : Option (List (ℚ × ℚ))) (cd : Option ℤ) (now : ℤ) :
    (finishTick cols rows buildings agent acts nextX nextY path cd now).agent = agent ∨
    ((finishTick cols rows buildings agent acts nextX nextY path cd now).agent.position =
        (clampWithinBounds nextX (cols : ℚ), clampWithinBounds nextY (rows : ℚ)) ∧
      isBlocked buildings (clampWithinBounds nextX (cols : ℚ))
        (clampWithinBounds nextY (rows : ℚ)) = false) := by
  by_cases hb : isBlocked buildings (clampWithinBounds nextX (cols : ℚ))
      (clampWithinBounds nextY (rows : ℚ)) = true
  · left
    simp only [finishTick]
    rw [if_pos hb]
  · by_cases he : clampWithinBounds nextX (cols : ℚ) = agent.position.1 ∧
        clampWithinBounds nextY (rows : ℚ) = agent.position.2
    · left
      simp only [finishTick]
      rw [if_neg hb, if_pos he]
    · right
      refine ⟨?_, by simpa using hb⟩
      simp only [finishTick]
      rw [if_neg hb, if_neg he]

/-- The position produced by the clamp/collision tail depends on the input
agent only through its position. -/
theorem finishTick_position_congr (cols rows : ℕ) (buildings : List Building)
    (a a' : AgentState) (acts acts' : List AgentBehavior) (nx ny : ℚ)
    (path path' : Option (List (ℚ × ℚ))) (cd cd' : Option ℤ) (now : ℤ)
    (hpos : a.position = a'.position) :
    (finishTick cols rows buildings a acts nx ny path cd now).agent.position =
      (finishTick cols rows buildings a' acts' nx ny path' cd' now).agent.position := by
  simp only [finishTick]
  rw [hpos]
  split_ifs with h1 h2 <;> simp [hpos]

/-- A tail step that moves the agent installs exactly the handed-in action
list. -/
theorem finishTick_changed_actions (cols rows : ℕ) (buildings : List Building)
    (a : AgentState) (acts : List AgentBehavior) (nx ny : ℚ)
    (path : Option (List (ℚ × ℚ))) (cd : Option ℤ) (now : ℤ)
    (h : (finishTick cols rows buildings a acts nx ny path cd now).agent.position ≠ a.position) :
    (finishTick cols rows buildings a acts nx ny path cd now).agent.actions = acts := by
  simp only [finishTick] at *
  split_ifs at * with h1 h2 <;> simp_all

/-- A tentative move produced in path-follow mode carries an empty action
list (`persistent.clear()`). -/
theorem moveAgent_path_acts (hyp : ℚ → ℚ → ℚ) (keys : KeyState) (t : ℚ × ℚ)
    (rest : List (ℚ × ℚ)) (lastMove : Option ℤ) (nowTs : ℤ) (agent : AgentState)
    (v : ℚ × ℚ × List AgentBehavior × Option (List (ℚ × ℚ)) × Option ℤ)
    (h : moveAgent hyp keys (some (t :: rest)) lastMove nowTs agent = Sum.inr v) :
    v.2.2.1 = [] := by
  simp only [moveAgent] at h
  split at h
  · simp at h
  · injection h with h'
    subst h'
    rfl

/-- Within reach of the waypoint, the movement phase snaps onto it, pops it,
and deletes queue and cooldown entries when the queue empties. -/
theorem moveAgent_path_snap (hyp : ℚ → ℚ → ℚ) (keys : KeyState) (target : ℚ × ℚ)
    (rest : List (ℚ × ℚ)) (lastMove : Option ℤ) (nowTs : ℤ) (agent : AgentState)
    (hthrottle : ¬ (nowTs - lastMove.getD 0 < PATH_DELAY_MS))
    (hnear : hyp (target.1 - agent.position.1) (target.2 - agent.position.2) ≤ PATH_STEP) :
    moveAgent hyp keys (some (target :: rest)) lastMove nowTs agent =
      Sum.inr (target.1, target.2, [],
        (if rest.isEmpty then none else some rest),
        (if rest.isEmpty then none else some nowTs)) := by
  cases hr : rest.isEmpty <;>
    simp only [moveAgent, hr] <;>
    rw [if_neg hthrottle] <;>
    rw [if_pos hnear] <;>
    simp

/-- Beyond reach of the waypoint, the movement phase advances by the fixed
path step along the direction vector scaled by the reported distance. -/
theorem moveAgent_path_far (hyp : ℚ → ℚ → ℚ) (keys : KeyState) (target : ℚ × ℚ)
    (rest : List (ℚ × ℚ)) (lastMove : Option ℤ) (nowTs : ℤ) (agent : AgentState)
    (hthrottle : ¬ (nowTs - lastMove.getD 0 < PATH_DELAY_MS))
    (hfar : PATH_STEP < hyp (target.1 - agent.position.1) (target.2 - agent.position.2)) :
    moveAgent hyp keys (some (target :: rest)) lastMove nowTs agent =
      Sum.inr (agent.position.1 +
          (target.1 - agent.position.1) /
            hyp (target.1 - agent.position.1) (target.2 - agent.position.2) * PATH_STEP,
        agent.position.2 +
          (target.2 - agent.position.2) /
            hyp (target.1 - agent.position.1) (target.2 - agent.position.2) * PATH_STEP,
        [], some (target :: rest), some nowTs) := by
  have hpos : (0 : ℚ) <
      hyp (target.1 - agent.position.1) (target.2 - agent.position.2) := by
    have : (0 : ℚ) < PATH_STEP := by norm_num [PATH_STEP]
    linarith
  simp only [moveAgent]
  rw [if_neg hthrottle, if_neg (not_le.mpr hfar), if_pos hpos]
  simp [min_eq_left (le_of_lt hfar)]

/-- When the destination survives the clamp and is unblocked, the tail puts
the agent exactly there and passes queue and cooldown entries through. -/
theorem finishTick_snap (cols rows : ℕ) (buildings : List Building) (agent : AgentState)
    (acts : List AgentBehavior) (t1 t2 : ℚ) (path : Option (List (ℚ × ℚ)))
    (cd : Option ℤ) (now : ℤ)
    (hcx : clampWithinBounds t1 (cols : ℚ) = t1)
    (hcy : clampWithinBounds t2 (rows : ℚ) = t2)
    (hnb : isBlocked buildings t1 t2 = false) :
    (finishTick cols rows buildings agent acts t1 t2 path cd now).agent.position = (t1, t2) ∧
    (finishTick cols rows buildings agent acts t1 t2 path cd now).path = path ∧
    (finishTick cols rows buildings agent acts t1 t2 path cd now).cooldown = cd := by
  simp only [finishTick, hcx, hcy, hnb]
  split_ifs with h1 h2 <;> simp_all [Prod.ext_iff]

/-- A displacement of the form `(dx/d·s, dy/d·s)` with `d² = dx² + dy²` has
squared length `s²`. -/
theorem step_norm (dx dy d s : ℚ) (hd2 : d ^ 2 = dx ^ 2 + dy ^ 2) (hd : d ≠ 0) :
    (dx / d * s) ^ 2 + (dy / d * s) ^ 2 = s ^ 2 := by
  have h : (dx / d * s) ^ 2 + (dy / d * s) ^ 2 = (dx ^ 2 + dy ^ 2) / d ^ 2 * s ^ 2 := by
    field_simp
    ring
  rw [h, ← hd2, div_self (pow_ne_zero 2 hd), one_mul]

/-- `mapInsert` under a different key does not disturb a lookup. -/
theorem mapLookup_insert_ne {β : Type} (m : List (String × β)) (k k' : String) (v : β)
    (h : k' ≠ k) : mapLookup (mapInsert m k' v) k = mapLookup m k := by
  induction m with
  | nil => simp [mapInsert, mapLookup, h]
  | cons e rest ih =>
    obtain ⟨a, b⟩ := e
    by_cases ha : a = k'
    · subst ha
      simp [mapInsert, mapLookup, h]
    · simp only [mapInsert, if_neg ha, mapLookup]
      by_cases hak : a = k
      · simp [hak]
      · simp [hak, ih]

/-- Filtering with a predicate that accepts every entry of a given key leaves
that key's lookup unchanged. -/
theorem mapLookup_filter {β : Type} (m : List (String × β)) (pred : String × β → Bool)
    (k : String) (hk : ∀ v : β, pred (k, v) = true) :
    mapLookup (m.filter pred) k = mapLookup m k := by
  induction m with
  | nil => simp [mapLookup]
  | cons e rest ih =>
    obtain ⟨a, b⟩ := e
    by_cases hak : a = k
    · subst hak
      simp [List.filter, hk b, mapLookup]
    · by_cases hp : pred (a, b) = true
      · simp [List.filter, hp, mapLookup, hak, ih]
      · simp only [List.filter, Bool.not_eq_true] at hp ⊢
        rw [hp]
        simp [mapLookup, hak] at ih ⊢
        exact ih

/-- If the persisted map holds `(pos, ts)` for `id` and no incoming agent
with that id carries a strictly newer timestamp, the reconciliation fold
keeps the stored entry and rewrites every incoming agent with that id to the
stored position and timestamp. -/
theorem reconcileList_keeps (l : List AgentState) (p : PersistMap) (id : String)
    (s : (ℚ × ℚ) × ℤ) (hs : mapLookup p id = some s)
    (hts : ∀ b ∈ l, b.id = id → b.updatedAt.getD 0 ≤ s.2) :
    mapLookup (reconcileList p l).1 id = some s ∧
    ∀ a ∈ l, a.id = id →
      { a with position := s.1, updatedAt := some s.2 } ∈ (reconcileList p l).2 := by
  induction l generalizing p with
  | nil => exact ⟨hs, by simp⟩
  | cons b rest ih =>
    by_cases hb : b.id = id
    · have hlook : mapLookup p b.id = some s := by rw [hb]; exact hs
      have hle : b.updatedAt.getD 0 ≤ s.2 := hts b (List.mem_cons_self b rest) hb
      have hstep : reconcileAgent p b =
          (p, { b with position := s.1, updatedAt := some s.2 }) := by
        simp only [reconcileAgent, hlook]
        rw [if_neg (not_lt.mpr hle)]
      have htail := ih p hs (fun c hc hcid => hts c (List.mem_cons_of_mem b hc) hcid)
      constructor
      · simpa [reconcileList, hstep] using htail.1
      · intro a ha haid
        rcases List.mem_cons.mp ha with rfl | ha'
        · simp [reconcileList, hstep]
        · simp only [reconcileList, hstep]
          exact List.mem_cons_of_mem _ (htail.2 a ha' haid)
    · have hkeep : mapLookup (reconcileAgent p b).1 id = some s := by
        simp only [reconcileAgent]
        cases hl : mapLookup p b.id with
        | none => simpa [mapLookup_insert_ne _ _ _ _ hb] using hs
        | some st =>
          by_cases hlt : st.2 < b.updatedAt.getD 0
          · simpa [hlt, mapLookup_insert_ne _ _ _ _ hb] using hs
          · simpa [hlt] using hs
      have htail := ih (reconcileAgent p b).1 hkeep
        (fun c hc hcid => hts c (List.mem_cons_of_mem b hc) hcid)
      constructor
      · simpa [reconcileList] using htail.1
      · intro a ha haid
        rcases List.mem_cons.mp ha with rfl | ha'
        · exact absurd haid hb
        · simp only [reconcileList]
          exact List.mem_cons_of_mem _ (htail.2 a ha' haid)

/-- Concrete run: fourteen throttled ticks drive `demoAgent` along the
queued path `[(2.5, 2.5), (3.5, 2.5)]` to exactly `(3.5, 2.5)`, emptying the
queue. -/
theorem demoRun :
    runTicks hypAxis 10 10 [] keysOff demoTimes
      (demoAgent, some [(5/2, 5/2), (7/2, 5/2)], none) =
    ({ id := "rover", label := "", position := (7/2, 5/2), color := none,
        actions := [], updatedAt := some 14000 }, none, none) := by
  have h1 : tickAgent hypAxis 10 10 [] keysOff (some [(5/2, 5/2), (7/2, 5/2)]) none 1000 1000 demoAgent =
      ⟨demoAgent, some [(7/2, 5/2)], some 1000, none⟩ := by
    norm_num +decide [tickAgent, moveAgent, finishTick, clampWithinBounds, isBlocked, jsSetFrom,
      hypAxis, jsEpsilon, PATH_STEP, PATH_DELAY_MS, PLAYER_ID, demoAgent, keysOff]
  have h2 : tickAgent hypAxis 10 10 [] keysOff (some [(7/2, 5/2)]) (some 1000) 2000 2000 demoAgent =
      ⟨{ id := "rover", label := "", position := (129/50, 5/2), color := none, actions := [], updatedAt := some 2000 }, some [(7/2, 5/2)], some 2000, none⟩ := by
    norm_num +decide [tickAgent, moveAgent, finishTick, clampWithinBounds, isBlocked, jsSetFrom,
      hypAxis, jsEpsilon, PATH_STEP, PATH_DELAY_MS, PLAYER_ID, demoAgent, keysOff]
  have h3 : tickAgent hypAxis 10 10 [] keysOff (some [(7/2, 5/2)]) (some 2000) 3000 3000 { id := "rover", label := "", position := (129/50, 5/2), color := none, actions := [], updatedAt := some 2000 } =
      ⟨{ id := "rover", label := "", position := (133/50, 5/2), color := none, actions := [], updatedAt := some 3000 }, some [(7/2, 5/2)], some 3000, none⟩ := by
    norm_num +decide [tickAgent, moveAgent, finishTick, clampWithinBounds, isBlocked, jsSetFrom,
      hypAxis, jsEpsilon, PATH_STEP, PATH_DELAY_MS, PLAYER_ID, demoAgent, keysOff]
  have h4 : tickAgent hypAxis 10 10 [] keysOff (some [(7/2, 5/2)]) (some 3000) 4000 4000 { id := "rover", label := "", position := (133/50, 5/2), color := none, actions := [], updatedAt := some 3000 } =
      ⟨{ id := "rover", label := "", position := (137/50, 5/2), color := none, actions := [], updatedAt := some 4000 }, some [(7/2, 5/2)], some 4000, none⟩ := by
    norm_num +decide [tickAgent, moveAgent, finishTick, clampWithinBounds, isBlocked, jsSetFrom,
      hypAxis, jsEpsilon, PATH_STEP, PATH_DELAY_MS, PLAYER_ID, demoAgent, keysOff]
  have h5 : tickAgent hypAxis 10 10 [] keysOff (some [(7/2, 5/2)]) (some 4000) 5000 5000 { id := "rover", label := "", position := (137/50, 5/2), color := none, actions := [], updatedAt := some 4000 } =
      ⟨{ id := "rover", label := "", position := (141/50, 5/2), color := none, actions := [], updatedAt := some 5000 }, some [(7/2, 5/2)], some 5000, none⟩ := by
    norm_num +decide [tickAgent, moveAgent, finishTick, clampWithinBounds, isBlocked, jsSetFrom,
      hypAxis, jsEpsilon, PATH_STEP, PATH_DELAY_MS, PLAYER_ID, demoAgent, keysOff]
  have h6 : tickAgent hypAxis 10 10 [] keysOff (some [(7/2, 5/2)]) (some 5000) 6000 6000 { id := "rover", label := "", position := (141/50, 5/2), color := none, actions := [], updatedAt := some 5000 } =
      ⟨{ id := "rover", label := "", position := (29/10, 5/2), color := none, actions := [], updatedAt := some 6000 }, some [(7/2, 5/2)], some 6000, none⟩ := by
    norm_num +decide [tickAgent, moveAgent, finishTick, clampWithinBounds, isBlocked, jsSetFrom,
      hypAxis, jsEpsilon, PATH_STEP, PATH_DELAY_MS, PLAYER_ID, demoAgent, keysOff]
  have h7 : tickAgent hypAxis 10 10 [] keysOff (some [(7/2, 5/2)]) (some 6000) 7000 7000 { id := "rover", label := "", position := (29/10, 5/2), color := none, actions := [], updatedAt := some 6000 } =
      ⟨{ id := "rover", label := "", position := (149/50, 5/2), color := none, actions := [], updatedAt := some 7000 }, some [(7/2, 5/2)], some 7000, none⟩ := by
    norm_num +decide [tickAgent, moveAgent, finishTick, clampWithinBounds, isBlocked, jsSetFrom,
      hypAxis, jsEpsilon, PATH_STEP, PATH_DELAY_MS, PLAYER_ID, demoAgent, keysOff]
  have h8 : tickAgent hypAxis 10 10 [] keysOff (some [(7/2, 5/2)]) (some 7000) 8000 8000 { id := "rover", label := "", position := (149/50, 5/2), color := none, actions := [], updatedAt := some 7000 } =
      ⟨{ id := "rover", label := "", position := (153/50, 5/2), color := none, actions := [], updatedAt := some 8000 }, some [(7/2, 5/2)], some 8000, none⟩ := by
    norm_num +decide [tickAgent, moveAgent, finishTick, clampWithinBounds, isBlocked, jsSetFrom,
      hypAxis, jsEpsilon, PATH_STEP, PATH_DELAY_MS, PLAYER_ID, demoAgent, keysOff]
  have h9 : tickAgent hypAxis 10 10 [] keysOff (some [(7/2, 5/2)]) (some 8000) 9000 9000 { id := "rover", label := "", position := (153/50, 5/2), color := none, actions := [], updatedAt := some 8000 } =
      ⟨{ id := "rover", label := "", position := (157/50, 5/2), color := none, actions := [], updatedAt := some 9000 }, some [(7/2, 5/2)], some 9000, none⟩ := by
    norm_num +decide [tickAgent, moveAgent, finishTick, clampWithinBounds, isBlocked, jsSetFrom,
      hypAxis, jsEpsilon, PATH_STEP, PATH_DELAY_MS, PLAYER_ID, demoAgent, keysOff]
  have h10 : tickAgent hypAxis 10 10 [] keysOff (some [(7/2, 5/2)]) (some 9000) 10000 10000 { id := "rover", label := "", position := (157/50, 5/2), color := none, actions := [], updatedAt := some 9000 } =
      ⟨{ id := "rover", label := "", position := (161/50, 5/2), color := none, actions := [], updatedAt := some 10000 }, some [(7/2, 5/2)], some 10000, none⟩ := by
    norm_num +decide [tickAgent, moveAgent, finishTick, clampWithinBounds, isBlocked, jsSetFrom,
      hypAxis, jsEpsilon, PATH_STEP, PATH_DELAY_MS, PLAYER_ID, demoAgent, keysOff]
  have h11 : tickAgent hypAxis 10 10 [] keysOff (some [(7/2, 5/2)]) (some 10000) 11000 11000 { id := "rover", label := "", position := (161/50, 5/2), color := none, actions := [], updatedAt := some 10000 } =
      ⟨{ id := "rover", label := "", position := (33/10, 5/2), color := none, actions := [], updatedAt := some 11000 }, some [(7/2, 5/2)], some 11000, none⟩ := by
    norm_num +decide [tickAgent, moveAgent, finishTick, clampWithinBounds, isBlocked, jsSetFrom,
      hypAxis, jsEpsilon, PATH_STEP, PATH_DELAY_MS, PLAYER_ID, demoAgent, keysOff]
  have h12 : tickAgent hypAxis 10 10 [] keysOff (some [(7/2, 5/2)]) (some 11000) 12000 12000 { id := "rover", label := "", position := (33/10, 5/2), color := none, actions := [], updatedAt := some 11000 } =
      ⟨{ id := "rover", label := "", position := (169/50, 5/2), color := none, actions := [], updatedAt := some 12000 }, some [(7/2, 5/2)], some 12000, none⟩ := by
    norm_num +decide [tickAgent, moveAgent, finishTick, clampWithinBounds, isBlocked, jsSetFrom,
      hypAxis, jsEpsilon, PATH_STEP, PATH_DELAY_MS, PLAYER_ID, demoAgent, keysOff]
  have h13 : tickAgent hypAxis 10 10 [] keysOff (some [(7/2, 5/2)]) (some 12000) 13000 13000 { id := "rover", label := "", position := (169/50, 5/2), color := none, actions := [], updatedAt := some 12000 } =
      ⟨{ id := "rover", label := "", position := (173/50, 5/2), color := none, actions := [], updatedAt := some 13000 }, some [(7/2, 5/2)], some 13000, none⟩ := by
    norm_num +decide [tickAgent, moveAgent, finishTick, clampWithinBounds, isBlocked, jsSetFrom,
      hypAxis, jsEpsilon, PATH_STEP, PATH_DELAY_MS, PLAYER_ID, demoAgent, keysOff]
  have h14 : tickAgent hypAxis 10 10 [] keysOff (some [(7/2, 5/2)]) (some 13000) 14000 14000 { id := "rover", label := "", position := (173/50, 5/2), color := none, actions := [], updatedAt := some 13000 } =
      ⟨{ id := "rover", label := "", position := (7/2, 5/2), color := none, actions := [], updatedAt := some 14000 }, none, none, none⟩ := by
    norm_num +decide [tickAgent, moveAgent, finishTick, clampWithinBounds, isBlocked, jsSetFrom,
      hypAxis, jsEpsilon, PATH_STEP, PATH_DELAY_MS, PLAYER_ID, demoAgent, keysOff]
  simp only [runTicks, demoTimes, h1, h2, h3, h4, h5, h6, h7, h8, h9, h10, h11, h12, h13, h14]


/-- C1 (amended): for a scene with positive world-bounds dimensions, every
agent whose position is updated by a tick of the motion integrator ends the
tick with `0 ≤ x < cols` and `0 ≤ y < rows`. -/
theorem tick_position_within_bounds (hyp : ℚ → ℚ → ℚ) (cols rows : ℕ)
    (buildings : List Building) (keys : KeyState)
    (activePath : Option (List (ℚ × ℚ))) (lastMove : Option ℤ) (nowTs now : ℤ)
    (agent : AgentState) (hc : 0 < cols) (hr : 0 < rows)
    (hupd : (tickAgent hyp cols rows buildings keys activePath lastMove nowTs now
        agent).agent.position ≠ agent.position) :
    0 ≤ (tickAgent hyp cols rows buildings keys activePath lastMove nowTs now
        agent).agent.position.1 ∧
    (tickAgent hyp cols rows buildings keys activePath lastMove nowTs now
        agent).agent.position.1 < (cols : ℚ) ∧
    0 ≤ (tickAgent hyp cols rows buildings keys activePath lastMove nowTs now
        agent).agent.position.2 ∧
    (tickAgent hyp cols rows buildings keys activePath lastMove nowTs now
        agent).agent.position.2 < (rows : ℚ) := by
  cases hm : moveAgent hyp keys activePath lastMove nowTs agent with
  | inl r =>
    rw [tickAgent_eq_inl hyp cols rows buildings keys activePath lastMove nowTs now
      agent r hm] at hupd
    exact absurd (congrArg AgentState.position
      (moveAgent_inl_agent hyp keys activePath lastMove nowTs agent r hm)) hupd
  | inr v =>
    obtain ⟨nx, ny, acts, path, cd⟩ := v
    rw [tickAgent_eq_inr hyp cols rows buildings keys activePath lastMove nowTs now
      agent nx ny acts path cd hm] at hupd ⊢
    rcases finishTick_position cols rows buildings agent acts nx ny path cd now with
      h | ⟨hpos, _⟩
    · exact absurd (congrArg AgentState.position h) hupd
    · rw [hpos]
      obtain ⟨a1, a2⟩ := clampWithinBounds_mem nx (cols : ℚ) (by exact_mod_cast hc)
      obtain ⟨b1, b2⟩ := clampWithinBounds_mem ny (rows : ℚ) (by exact_mod_cast hr)
      exact ⟨a1, a2, b1, b2⟩

/-- C1 witness: a commanded agent at `(1, 1)` on a 10×10 scene moves and ends
inside the bounds. -/
theorem tick_position_within_bounds_witness :
    ((0 : ℕ) < 10 ∧
      (tickAgent hypAxis 10 10 [] keysOff none none 0 0 agMoveRight).agent.position ≠
        agMoveRight.position) ∧
    (0 ≤ (tickAgent hypAxis 10 10 [] keysOff none none 0 0 agMoveRight).agent.position.1 ∧
      (tickAgent hypAxis 10 10 [] keysOff none none 0 0 agMoveRight).agent.position.1 <
        ((10 : ℕ) : ℚ) ∧
      0 ≤ (tickAgent hypAxis 10 10 [] keysOff none none 0 0 agMoveRight).agent.position.2 ∧
      (tickAgent hypAxis 10 10 [] keysOff none none 0 0 agMoveRight).agent.position.2 <
        ((10 : ℕ) : ℚ)) :=
  ⟨⟨by norm_num,
    by norm_num +decide [tickAgent, moveAgent, finishTick, clampWithinBounds, isBlocked,
      jsSetFrom, jsEpsilon, COMMAND_STEP, MOVEMENT_SPEED, PLAYER_ID, agMoveRight, keysOff]⟩,
    tick_position_within_bounds hypAxis 10 10 [] keysOff none none 0 0 agMoveRight
      (by norm_num) (by norm_num)
      (by norm_num +decide [tickAgent, moveAgent, finishTick, clampWithinBounds, isBlocked,
        jsSetFrom, jsEpsilon, COMMAND_STEP, MOVEMENT_SPEED, PLAYER_ID, agMoveRight, keysOff])⟩

/-- C1 counterexample: on a scene with `cols = rows = 0` the clamp is a
no-op, so a commanded agent is updated to a position outside
`[0, cols) × [0, rows)` (which is empty). -/
theorem tick_bounds_zero_dims_cex :
    (tickAgent hypAxis 0 0 [] keysOff none none 0 0 agStray).agent.position ≠
      agStray.position ∧
    ¬ (0 ≤ (tickAgent hypAxis 0 0 [] keysOff none none 0 0 agStray).agent.position.1 ∧
        (tickAgent hypAxis 0 0 [] keysOff none none 0 0 agStray).agent.position.1 <
          ((0 : ℕ) : ℚ)) := by
  constructor <;>
    norm_num +decide [tickAgent, moveAgent, finishTick, clampWithinBounds, isBlocked,
      jsSetFrom, jsEpsilon, COMMAND_STEP, MOVEMENT_SPEED, PLAYER_ID, agStray, keysOff]

/-- C2: a tick never moves an agent from an unblocked position onto a blocked
one, and when the clamped tentative destination is blocked the clamp tail
rejects the move entirely, keeping the prior agent record. -/
theorem tick_preserves_unblocked (hyp : ℚ → ℚ → ℚ) (cols rows : ℕ)
    (buildings : List Building) (keys : KeyState)
    (activePath : Option (List (ℚ × ℚ))) (lastMove : Option ℤ) (nowTs now : ℤ)
    (agent : AgentState) (acts : List AgentBehavior) (nextX nextY : ℚ)
    (path : Option (List (ℚ × ℚ))) (cd : Option ℤ)
    (hpre : isBlocked buildings agent.position.1 agent.position.2 = false) :
    isBlocked buildings
        (tickAgent hyp cols rows buildings keys activePath lastMove nowTs now
          agent).agent.position.1
        (tickAgent hyp cols rows buildings keys activePath lastMove nowTs now
          agent).agent.position.2 = false ∧
    (isBlocked buildings (clampWithinBounds nextX (cols : ℚ))
        (clampWithinBounds nextY (rows : ℚ)) = true →
      (finishTick cols rows buildings agent acts nextX nextY path cd now).agent = agent) := by
  constructor
  · cases hm : moveAgent hyp keys activePath lastMove nowTs agent with
    | inl r =>
      rw [tickAgent_eq_inl hyp cols rows buildings keys activePath lastMove nowTs now
        agent r hm,
        moveAgent_inl_agent hyp keys activePath lastMove nowTs agent r hm]
      exact hpre
    | inr v =>
      obtain ⟨nx, ny, a2, p2, c2⟩ := v
      rw [tickAgent_eq_inr hyp cols rows buildings keys activePath lastMove nowTs now
        agent nx ny a2 p2 c2 hm]
      rcases finishTick_position cols rows buildings agent a2 nx ny p2 c2 now with
        h | ⟨hpos, hfree⟩
      · rw [h]
        exact hpre
      · rw [hpos]
        exact hfree
  · intro hb
    simp only [finishTick]
    rw [if_pos hb]

/-- C2 witness: next to the building footprint `(4, 4, 2, 2)` an agent moves
without entering it, and a tentative destination inside the footprint is
rejected wholesale. -/
theorem tick_preserves_unblocked_witness :
    isBlocked [b442] agMoveRight.position.1 agMoveRight.position.2 = false ∧
    isBlocked [b442]
        (tickAgent hypAxis 10 10 [b442] keysOff none none 0 0 agMoveRight).agent.position.1
        (tickAgent hypAxis 10 10 [b442] keysOff none none 0 0 agMoveRight).agent.position.2 =
      false ∧
    isBlocked [b442] (clampWithinBounds (9/2) ((10 : ℕ) : ℚ))
        (clampWithinBounds (9/2) ((10 : ℕ) : ℚ)) = true ∧
    (finishTick 10 10 [b442] agMoveRight [] (9/2) (9/2) none none 0).agent = agMoveRight :=
  ⟨by norm_num +decide [isBlocked, b442, agMoveRight],
    (tick_preserves_unblocked hypAxis 10 10 [b442] keysOff none none 0 0 agMoveRight
      [] (9/2) (9/2) none none
      (by norm_num +decide [isBlocked, b442, agMoveRight])).1,
    by norm_num +decide [isBlocked, clampWithinBounds, jsEpsilon, b442],
    (tick_preserves_unblocked hypAxis 10 10 [b442] keysOff none none 0 0 agMoveRight
      [] (9/2) (9/2) none none
      (by norm_num +decide [isBlocked, b442, agMoveRight])).2
      (by norm_num +decide [isBlocked, clampWithinBounds, jsEpsilon, b442])⟩

/-- C3 (amended): with a non-empty queued path, the tick's resulting position
is independent of the keyboard state and of the asserted directives; and
whenever such a tick actually changes the agent's position it also clears the
asserted directives (a throttled or rejected/no-op tick returns the agent
record, directives included, unchanged). -/
theorem path_precedence (hyp : ℚ → ℚ → ℚ) (cols rows : ℕ) (buildings : List Building)
    (keys keys' : KeyState) (acts acts' : List AgentBehavior)
    (target : ℚ × ℚ) (rest : List (ℚ × ℚ)) (lastMove : Option ℤ) (nowTs now : ℤ)
    (agent : AgentState) :
    (tickAgent hyp cols rows buildings keys (some (target :: rest)) lastMove nowTs now
        { agent with actions := acts }).agent.position =
      (tickAgent hyp cols rows buildings keys' (some (target :: rest)) lastMove nowTs now
        { agent with actions := acts' }).agent.position ∧
    ((tickAgent hyp cols rows buildings keys (some (target :: rest)) lastMove nowTs now
        { agent with actions := acts }).agent.position ≠ agent.position →
      (tickAgent hyp cols rows buildings keys (some (target :: rest)) lastMove nowTs now
        { agent with actions := acts }).agent.actions = []) := by
  by_cases hcd : nowTs - lastMove.getD 0 < PATH_DELAY_MS
  · have h1 : moveAgent hyp keys (some (target :: rest)) lastMove nowTs
        { agent with actions := acts } =
        Sum.inl ⟨{ agent with actions := acts }, some (target :: rest), lastMove, none⟩ := by
      simp only [moveAgent]
      rw [if_pos hcd]
    have h2 : moveAgent hyp keys' (some (target :: rest)) lastMove nowTs
        { agent with actions := acts' } =
        Sum.inl ⟨{ agent with actions := acts' }, some (target :: rest), lastMove, none⟩ := by
      simp only [moveAgent]
      rw [if_pos hcd]
    rw [tickAgent_eq_inl hyp cols rows buildings keys _ lastMove nowTs now _ _ h1,
      tickAgent_eq_inl hyp cols rows buildings keys' _ lastMove nowTs now _ _ h2]
    exact ⟨rfl, fun hne => absurd rfl hne⟩
  · have heq : moveAgent hyp keys (some (target :: rest)) lastMove nowTs
        { agent with actions := acts } =
        moveAgent hyp keys' (some (target :: rest)) lastMove nowTs
          { agent with actions := acts' } := by
      simp only [moveAgent]
      rw [if_neg hcd, if_neg hcd]
    cases hm : moveAgent hyp keys' (some (target :: rest)) lastMove nowTs
        { agent with actions := acts' } with
    | inl r =>
      simp only [moveAgent] at hm
      rw [if_neg hcd] at hm
      simp at hm
    | inr v =>
      obtain ⟨nx, ny, acts2, p2, c2⟩ := v
      have hm' := heq.trans hm
      have hacts2 : acts2 = [] :=
        moveAgent_path_acts hyp keys target rest lastMove nowTs _ _ hm'
      rw [tickAgent_eq_inr hyp cols rows buildings keys _ lastMove nowTs now _
          nx ny acts2 p2 c2 hm',
        tickAgent_eq_inr hyp cols rows buildings keys' _ lastMove nowTs now _
          nx ny acts2 p2 c2 hm]
      constructor
      · exact finishTick_position_congr cols rows buildings _ _ acts2 acts2 nx ny
          p2 p2 c2 c2 now rfl
      · intro hne
        rw [finishTick_changed_actions cols rows buildings _ acts2 nx ny p2 c2 now hne]
        exact hacts2

/-- C3 witness: a path-following tick moves the agent identically whether all
keys are held with a `move_right` directive or nothing is asserted, and the
move clears the directives. -/
theorem path_precedence_witness :
    (tickAgent hypAxis 10 10 [] keysOff (some [(7/2, 5/2)]) (some 1000) 2000 2000
        { demoAgent with actions := [AgentBehavior.move_right] }).agent.position =
      (tickAgent hypAxis 10 10 [] keysAll (some [(7/2, 5/2)]) (some 1000) 2000 2000
        { demoAgent with actions := [] }).agent.position ∧
    (tickAgent hypAxis 10 10 [] keysOff (some [(7/2, 5/2)]) (some 1000) 2000 2000
        { demoAgent with actions := [AgentBehavior.move_right] }).agent.position ≠
      demoAgent.position ∧
    (tickAgent hypAxis 10 10 [] keysOff (some [(7/2, 5/2)]) (some 1000) 2000 2000
        { demoAgent with actions := [AgentBehavior.move_right] }).agent.actions = [] :=
  ⟨(path_precedence hypAxis 10 10 [] keysOff keysAll [AgentBehavior.move_right] []
      (7/2, 5/2) [] (some 1000) 2000 2000 demoAgent).1,
    by norm_num +decide [tickAgent, moveAgent, finishTick, clampWithinBounds, isBlocked,
      jsSetFrom, hypAxis, jsEpsilon, PATH_STEP, PATH_DELAY_MS, PLAYER_ID, demoAgent, keysOff],
    (path_precedence hypAxis 10 10 [] keysOff keysAll [AgentBehavior.move_right] []
      (7/2, 5/2) [] (some 1000) 2000 2000 demoAgent).2
      (by norm_num +decide [tickAgent, moveAgent, finishTick, clampWithinBounds, isBlocked,
        jsSetFrom, hypAxis, jsEpsilon, PATH_STEP, PATH_DELAY_MS, PLAYER_ID, demoAgent,
        keysOff])⟩

/-- C3 counterexample: on a throttled tick (200 ms since the last path step,
delay 500 ms) an agent with a non-empty queued path keeps its asserted
directives — the tick does not clear them. -/
theorem path_precedence_throttled_cex :
    (tickAgent hypAxis 10 10 [] keysOff (some [(129/50, 5/2)]) (some 1000) 1200 1200
        { demoAgent with actions := [AgentBehavior.move_right] }).agent.actions ≠ [] := by
  norm_num +decide [tickAgent, moveAgent, finishTick, clampWithinBounds, isBlocked,
    jsSetFrom, hypAxis, jsEpsilon, PATH_STEP, PATH_DELAY_MS, PLAYER_ID, demoAgent, keysOff]

/-- C8: a non-player agent with no queued path and no directives is returned
bit-identically by a tick. -/
theorem noop_tick_identity (hyp : ℚ → ℚ → ℚ) (cols rows : ℕ) (buildings : List Building)
    (keys : KeyState) (activePath : Option (List (ℚ × ℚ))) (lastMove : Option ℤ)
    (nowTs now : ℤ) (agent : AgentState)
    (hid : agent.id ≠ PLAYER_ID)
    (hpath : activePath = none ∨ activePath = some [])
    (hacts : agent.actions = []) :
    (tickAgent hyp cols rows buildings keys activePath lastMove nowTs now agent).agent =
      agent := by
  have hbeq : (agent.id == PLAYER_ID) = false := beq_eq_false_iff_ne.mpr hid
  have hm : moveAgent hyp keys activePath lastMove nowTs agent =
      Sum.inl ⟨agent, activePath, none, none⟩ := by
    rcases hpath with h | h <;> subst h <;>
      simp [moveAgent, jsSetFrom, hacts, hbeq]
  rw [tickAgent_eq_inl hyp cols rows buildings keys activePath lastMove nowTs now agent _ hm]

/-- C8 witness: the idle non-player agent `agIdle` is untouched by a tick
even with keys held and a cooldown entry present. -/
theorem noop_tick_identity_witness :
    (agIdle.id ≠ PLAYER_ID ∧ agIdle.actions = []) ∧
    (tickAgent hypAxis 10 10 [b442] keysAll none (some 5) 0 0 agIdle).agent = agIdle :=
  ⟨⟨by decide, rfl⟩,
    noop_tick_identity hypAxis 10 10 [b442] keysAll none (some 5) 0 0 agIdle
      (by decide) (Or.inl rfl) rfl⟩


/-- C4: a snapshot reconciliation keeps a locally persisted
`(position, timestamp)` entry, and rewrites the matching snapshot agent to
that position and timestamp, whenever no snapshot entry for the id carries a
strictly newer timestamp. -/
theorem reconcile_keeps_newer_local (p : PersistMap) (incoming : List AgentState)
    (a : AgentState) (s : (ℚ × ℚ) × ℤ)
    (hs : mapLookup p a.id = some s)
    (hmem : a ∈ incoming)
    (hts : ∀ b ∈ incoming, b.id = a.id → b.updatedAt.getD 0 ≤ s.2) :
    { a with position := s.1, updatedAt := some s.2 } ∈ (reconcile p incoming).2 ∧
    mapLookup (reconcile p incoming).1 a.id = some s := by
  obtain ⟨hlook, hmem'⟩ := reconcileList_keeps incoming p a.id s hs hts
  have hmema := hmem' a hmem rfl
  constructor
  · simpa [reconcile] using hmema
  · have hpred : ∀ v : (ℚ × ℚ) × ℤ,
        ((reconcileList p incoming).2.any fun ag => decide (ag.id = a.id)) = true := by
      intro _
      exact List.any_eq_true.mpr ⟨_, hmema, by simp⟩
    simp only [reconcile]
    rw [mapLookup_filter _ _ _ hpred]
    exact hlook

/-- C4 witness: a snapshot entry with timestamp 50 does not displace the
locally persisted `((10, 10), 100)` entry, and the refreshed agent carries
the local position and timestamp. -/
theorem reconcile_keeps_newer_local_witness :
    (mapLookup persistOne agStale.id = some ((10, 10), 100) ∧ agStale ∈ [agStale]) ∧
    ({ agStale with position := (10, 10), updatedAt := some (100 : ℤ) } ∈
        (reconcile persistOne [agStale]).2 ∧
      mapLookup (reconcile persistOne [agStale]).1 agStale.id = some ((10, 10), 100)) :=
  ⟨⟨by simp [persistOne, agStale, mapLookup], by simp⟩,
    reconcile_keeps_newer_local persistOne [agStale] agStale ((10, 10), 100)
      (by simp [persistOne, agStale, mapLookup]) (by simp)
      (by
        intro b hb _
        simp only [List.mem_singleton] at hb
        subst hb
        norm_num [agStale])⟩

/-- C5: the path planner returns `none` when the rounded-and-clamped target
cell is blocked and when the raw search yields at most one cell, and every
`some` result is the raw search path with the start cell dropped and the
remaining cells mapped to their centers `(x + 0.5, y + 0.5)`. -/
theorem computePath_spec (cols rows : ℕ) (buildings : List Building) (src dst : ℚ × ℚ) :
    (isBlocked buildings ((plannerClamp (jsRound dst.1) cols : ℤ) : ℚ)
        ((plannerClamp (jsRound dst.2) rows : ℤ) : ℚ) = true →
      computePath cols rows buildings src dst = none) ∧
    ((findPath cols rows buildings (plannerClamp (jsRound src.1) cols)
        (plannerClamp (jsRound src.2) rows) (plannerClamp (jsRound dst.1) cols)
        (plannerClamp (jsRound dst.2) rows)).length ≤ 1 →
      computePath cols rows buildings src dst = none) ∧
    (∀ l, computePath cols rows buildings src dst = some l →
      l = (findPath cols rows buildings (plannerClamp (jsRound src.1) cols)
          (plannerClamp (jsRound src.2) rows) (plannerClamp (jsRound dst.1) cols)
          (plannerClamp (jsRound dst.2) rows)).tail.map
        (fun c => ((c.1 : ℚ) + 1/2, (c.2 : ℚ) + 1/2))) := by
  refine ⟨?_, ?_, ?_⟩
  · intro hb
    simp only [computePath]
    split_ifs <;> simp_all
  · intro hlen
    simp only [computePath]
    split_ifs <;> simp_all
  · intro l hl
    simp only [computePath] at hl
    split_ifs at hl
    all_goals simp_all

/-- C5 witness: the target cell `(4, 4)` lies inside the building footprint
`(4, 4, 2, 2)`, so the planner returns `none`. -/
theorem computePath_spec_witness :
    isBlocked [b442] ((plannerClamp (jsRound ((4 : ℚ), (4 : ℚ)).1) 10 : ℤ) : ℚ)
        ((plannerClamp (jsRound ((4 : ℚ), (4 : ℚ)).2) 10 : ℤ) : ℚ) = true ∧
    computePath 10 10 [b442] (1, 1) (4, 4) = none :=
  ⟨by norm_num +decide [isBlocked, plannerClamp, jsRound, b442],
    (computePath_spec 10 10 [b442] (1, 1) (4, 4)).1
      (by norm_num +decide [isBlocked, plannerClamp, jsRound, b442])⟩

/-- C6 (amended): on a tick where the path-follow delay has elapsed, an agent
within the fixed path step of its first waypoint is set exactly onto that
waypoint — provided the waypoint survives the world-bounds clamp and is not
blocked — and the waypoint is popped, the queue and cooldown entries being
deleted when the queue empties; an agent farther away moves tentatively by
the path step along the normalized direction vector (a displacement of
squared length `PATH_STEP²` when `hyp` reports the Euclidean distance); and
the concrete run of the queued path `[(2.5, 2.5), (3.5, 2.5)]` ends with
position exactly `(3.5, 2.5)` and an empty queue. -/
theorem path_follow_step_spec :
    (∀ (hyp : ℚ → ℚ → ℚ) (cols rows : ℕ) (buildings : List Building) (keys : KeyState)
        (target : ℚ × ℚ) (rest : List (ℚ × ℚ)) (lastMove : Option ℤ) (nowTs now : ℤ)
        (agent : AgentState),
      ¬ (nowTs - lastMove.getD 0 < PATH_DELAY_MS) →
      ((hyp (target.1 - agent.position.1) (target.2 - agent.position.2) ≤ PATH_STEP →
        clampWithinBounds target.1 (cols : ℚ) = target.1 →
        clampWithinBounds target.2 (rows : ℚ) = target.2 →
        isBlocked buildings target.1 target.2 = false →
        (tickAgent hyp cols rows buildings keys (some (target :: rest)) lastMove nowTs now
            agent).agent.position = target ∧
        (tickAgent hyp cols rows buildings keys (some (target :: rest)) lastMove nowTs now
            agent).path = (if rest.isEmpty then none else some rest) ∧
        (tickAgent hyp cols rows buildings keys (some (target :: rest)) lastMove nowTs now
            agent).cooldown = (if rest.isEmpty then none else some nowTs)) ∧
      (PATH_STEP < hyp (target.1 - agent.position.1) (target.2 - agent.position.2) →
        (hyp (target.1 - agent.position.1) (target.2 - agent.position.2)) ^ 2 =
          (target.1 - agent.position.1) ^ 2 + (target.2 - agent.position.2) ^ 2 →
        moveAgent hyp keys (some (target :: rest)) lastMove nowTs agent =
          Sum.inr (agent.position.1 +
              (target.1 - agent.position.1) /
                hyp (target.1 - agent.position.1) (target.2 - agent.position.2) * PATH_STEP,
            agent.position.2 +
              (target.2 - agent.position.2) /
                hyp (target.1 - agent.position.1) (target.2 - agent.position.2) * PATH_STEP,
            [], some (target :: rest), some nowTs) ∧
        ((target.1 - agent.position.1) /
            hyp (target.1 - agent.position.1) (target.2 - agent.position.2) * PATH_STEP) ^ 2 +
          ((target.2 - agent.position.2) /
            hyp (target.1 - agent.position.1) (target.2 - agent.position.2) * PATH_STEP) ^ 2 =
          PATH_STEP ^ 2))) ∧
    runTicks hypAxis 10 10 [] keysOff demoTimes
      (demoAgent, some [(5/2, 5/2), (7/2, 5/2)], none) =
    ({ id := "rover", label := "", position := (7/2, 5/2), color := none,
        actions := [], updatedAt := some 14000 }, none, none) := by
  constructor
  · intro hyp cols rows buildings keys target rest lastMove nowTs now agent hthr
    constructor
    · intro hnear hcx hcy hnb
      rw [tickAgent_eq_inr hyp cols rows buildings keys _ lastMove nowTs now agent
        target.1 target.2 [] _ _
        (moveAgent_path_snap hyp keys target rest lastMove nowTs agent hthr hnear)]
      exact finishTick_snap cols rows buildings agent [] target.1 target.2 _ _ now hcx hcy hnb
    · intro hfar hd2
      have hd : hyp (target.1 - agent.position.1) (target.2 - agent.position.2) ≠ 0 := by
        have hps : (0 : ℚ) < PATH_STEP := by norm_num [PATH_STEP]
        intro h0
        rw [h0] at hfar
        linarith
      exact ⟨moveAgent_path_far hyp keys target rest lastMove nowTs agent hthr hfar,
        step_norm _ _ _ _ hd2 hd⟩
  · exact demoRun

/-- C6 witness: with the delay elapsed, an agent 0.06 below its waypoint
snaps exactly onto it. -/
theorem path_follow_step_spec_witness :
    (¬ ((1000 : ℤ) - (none : Option ℤ).getD 0 < PATH_DELAY_MS) ∧
      hypAxis (((5 : ℚ)/2, (64 : ℚ)/25).1 - demoAgent.position.1)
        (((5 : ℚ)/2, (64 : ℚ)/25).2 - demoAgent.position.2) ≤ PATH_STEP) ∧
    (tickAgent hypAxis 10 10 [] keysOff (some [((5 : ℚ)/2, (64 : ℚ)/25)]) none 1000 1000
        demoAgent).agent.position = ((5 : ℚ)/2, (64 : ℚ)/25) :=
  ⟨⟨by norm_num [PATH_DELAY_MS],
    by norm_num [hypAxis, demoAgent, PATH_STEP]⟩,
    ((path_follow_step_spec.1 hypAxis 10 10 [] keysOff ((5 : ℚ)/2, (64 : ℚ)/25) [] none
        1000 1000 demoAgent (by norm_num [PATH_DELAY_MS])).1
      (by norm_num [hypAxis, demoAgent, PATH_STEP])
      (by norm_num [clampWithinBounds, jsEpsilon])
      (by norm_num [clampWithinBounds, jsEpsilon])
      (by simp [isBlocked])).1⟩

/-- C6 counterexample: a throttled tick (200 ms since the last path step)
leaves an agent within snapping distance of its waypoint where it is, and
the waypoint is not popped. -/
theorem path_follow_throttled_cex :
    hypAxis ((129/50 : ℚ) - demoAgent.position.1) ((5/2 : ℚ) - demoAgent.position.2) ≤
      PATH_STEP ∧
    (tickAgent hypAxis 10 10 [] keysOff (some [((129 : ℚ)/50, (5 : ℚ)/2)]) (some 1000)
        1200 1200 demoAgent).agent.position ≠ ((129 : ℚ)/50, (5 : ℚ)/2) ∧
    (tickAgent hypAxis 10 10 [] keysOff (some [((129 : ℚ)/50, (5 : ℚ)/2)]) (some 1000)
        1200 1200 demoAgent).path = some [((129 : ℚ)/50, (5 : ℚ)/2)] := by
  refine ⟨?_, ?_, ?_⟩ <;>
    norm_num +decide [tickAgent, moveAgent, finishTick, clampWithinBounds, isBlocked,
      jsSetFrom, hypAxis, jsEpsilon, PATH_STEP, PATH_DELAY_MS, PLAYER_ID, demoAgent, keysOff]

/-- C7: the path planner is a pure function — identical grid dimensions,
buildings and endpoints yield identical results. -/
theorem computePath_deterministic (colsA colsB rowsA rowsB : ℕ) (bA bB : List Building)
    (srcA srcB dstA dstB : ℚ × ℚ) (hc : colsA = colsB) (hr : rowsA = rowsB)
    (hb : bA = bB) (hsrc : srcA = srcB) (hdst : dstA = dstB) :
    computePath colsA rowsA bA srcA dstA = computePath colsB rowsB bB srcB dstB := by
  subst hc
  subst hr
  subst hb
  subst hsrc
  subst hdst
  rfl

/-- C7 witness: two identical planner calls agree. -/
theorem computePath_deterministic_witness :
    computePath 10 10 [b442] (1, 1) (5, 5) = computePath 10 10 [b442] (1, 1) (5, 5) :=
  computePath_deterministic 10 10 10 10 [b442] [b442] (1, 1) (1, 1) (5, 5) (5, 5)
    rfl rfl rfl rfl rfl

/-- C9: when the planner returns `none` for an auto-balance relocation target
— here because the target cell `(4, 4)` is itself blocked — the fallback
writes the raw target into the agent record, with neither the world-bounds
clamp nor the obstacle-index check, leaving the agent inside the blocked
rectangle. -/
theorem autobalance_fallback_blocked :
    computePath 10 10 [b442] (1, 1) (4, 4) = none ∧
    (handleRelocation 10 10 [b442] "b1" 4 4 1000 relocDemo).agents =
      [{ id := "b1", label := "", position := (4, 4), color := none, actions := [],
          updatedAt := some 1000 }] ∧
    isBlocked [b442] 4 4 = true := by
  refine ⟨?_, ?_, ?_⟩ <;>
    norm_num +decide [handleRelocation, computePath, plannerClamp, jsRound, isBlocked,
      mapLookup, mapInsert, mapDelete, b442, relocDemo, relocAgent]

/-- C10: a snapshot agent without an `updatedAt` field reconciles with
timestamp 0, so it never displaces an existing persisted entry with a
nonnegative timestamp, and it is stored with timestamp 0 exactly when no
entry exists for its id. -/
theorem reconcile_missing_timestamp (p : PersistMap) (a : AgentState)
    (hts : a.updatedAt = none) :
    (∀ s : (ℚ × ℚ) × ℤ, mapLookup p a.id = some s → 0 ≤ s.2 →
      reconcileAgent p a = (p, { a with position := s.1, updatedAt := some s.2 })) ∧
    (mapLookup p a.id = none →
      reconcileAgent p a = (mapInsert p a.id (a.position, 0), a)) := by
  constructor
  · intro s hl hs0
    simp only [reconcileAgent, hts, hl]
    rw [if_neg (by simpa using not_lt.mpr hs0)]
  · intro hl
    simp [reconcileAgent, hts, hl]

/-- C10 witness: the timestampless snapshot agent `agNoTs` does not displace
the persisted `((10, 10), 100)` entry. -/
theorem reconcile_missing_timestamp_witness :
    (agNoTs.updatedAt = none ∧ mapLookup persistOne agNoTs.id = some ((10, 10), 100)) ∧
    reconcileAgent persistOne agNoTs =
      (persistOne, { agNoTs with position := (10, 10), updatedAt := some (100 : ℤ) }) :=
  ⟨⟨rfl, by simp [persistOne, agNoTs, mapLookup]⟩,
    (reconcile_missing_timestamp persistOne agNoTs rfl).1 ((10, 10), 100)
      (by simp [persistOne, agNoTs, mapLookup]) (by norm_num)⟩

end AgentController
